import Mathlib

/-!
Verification development for the technical-indicator computation and
rule-based signal/strategy engine of `profitable_smallcap_ai/technical_analysis.py`
(class `TechnicalAnalyzer`).

Numbers: the source works on 64-bit floats via pandas.  We embed each float
column value as `EF`: either a finite rational, `+inf`, `-inf`, or NaN,
with arithmetic and comparisons following IEEE-754 semantics (NaN
propagates; any comparison with NaN is false; `x/0` is a signed infinity
for `x ≠ 0` and NaN for `0/0`).  Finite values carry exact rationals: the
claims under verification concern special-value propagation and exact
boundary cases, never rounding error.

The one float operation with no rational counterpart is the square root
used by the rolling standard deviation of the Bollinger-band computation;
the development is parametric in it (`sq : ℚ → ℚ`).  No claim below
depends on the value of a square root at a filled window.
-/

/-- Extended value: the embedding of one 64-bit float cell.
`fin q` is a finite value with exact rational payload. -/
inductive EF where
  | nan : EF
  | pinf : EF
  | ninf : EF
  | fin (q : ℚ) : EF
deriving DecidableEq, Repr

namespace EF

/-- IEEE negation. -/
def neg : EF → EF
  | nan => nan
  | pinf => ninf
  | ninf => pinf
  | fin q => fin (-q)

/-- IEEE addition (NaN propagates, `+inf + -inf = NaN`). -/
def add : EF → EF → EF
  | nan, _ => nan
  | _, nan => nan
  | pinf, ninf => nan
  | ninf, pinf => nan
  | pinf, _ => pinf
  | _, pinf => pinf
  | ninf, _ => ninf
  | _, ninf => ninf
  | fin x, fin y => fin (x + y)

/-- IEEE subtraction, `a - b = a + (-b)`. -/
def sub (a b : EF) : EF := add a (neg b)

/-- IEEE multiplication (`inf * 0 = NaN`). -/
def mul : EF → EF → EF
  | nan, _ => nan
  | _, nan => nan
  | pinf, pinf => pinf
  | pinf, ninf => ninf
  | ninf, pinf => ninf
  | ninf, ninf => pinf
  | pinf, fin y => if y = 0 then nan else if 0 < y then pinf else ninf
  | fin x, pinf => if x = 0 then nan else if 0 < x then pinf else ninf
  | ninf, fin y => if y = 0 then nan else if 0 < y then ninf else pinf
  | fin x, ninf => if x = 0 then nan else if 0 < x then ninf else pinf
  | fin x, fin y => fin (x * y)

/-- IEEE division: `x/0` is a signed infinity for finite `x ≠ 0`,
`0/0 = NaN`, `inf/inf = NaN`, finite over infinite is zero. -/
def div : EF → EF → EF
  | nan, _ => nan
  | _, nan => nan
  | pinf, pinf => nan
  | pinf, ninf => nan
  | ninf, pinf => nan
  | ninf, ninf => nan
  | pinf, fin y => if 0 ≤ y then pinf else ninf
  | ninf, fin y => if 0 ≤ y then ninf else pinf
  | fin _, pinf => fin 0
  | fin _, ninf => fin 0
  | fin x, fin y =>
      if y = 0 then (if x = 0 then nan else if 0 < x then pinf else ninf)
      else fin (x / y)

/-- IEEE strict comparison: any comparison involving NaN is false. -/
def lt : EF → EF → Bool
  | nan, _ => false
  | _, nan => false
  | ninf, ninf => false
  | ninf, _ => true
  | _, ninf => false
  | pinf, _ => false
  | fin _, pinf => true
  | fin x, fin y => decide (x < y)

/-- IEEE non-strict comparison: any comparison involving NaN is false. -/
def le : EF → EF → Bool
  | nan, _ => false
  | _, nan => false
  | ninf, _ => true
  | _, ninf => false
  | _, pinf => true
  | pinf, _ => false
  | fin x, fin y => decide (x ≤ y)

/-- IEEE absolute value. -/
def eabs : EF → EF
  | nan => nan
  | pinf => pinf
  | ninf => pinf
  | fin q => fin |q|

end EF

/-- One row of the raw price history (`stock.history` output):
date ordinal plus the base OHLCV columns.  Volumes are rationals since
pandas holds them in the same float frame. -/
structure Bar where
  date : ℤ
  bopen : ℚ
  high : ℚ
  low : ℚ
  close : ℚ
  volume : ℚ
deriving DecidableEq, Repr

/-- Sum of `f` over the trailing window of length `w` ending at row `i`
(rows `i+1-w … i`, current row included). -/
def winSum (w : ℕ) (f : ℕ → ℚ) (i : ℕ) : ℚ :=
  ((List.range w).map (fun j => f (i + 1 - w + j))).sum

/-- `Series.rolling(window=w).mean()` at row `i`: NaN until the window is
filled (`min_periods` defaults to the window size), else the exact mean. -/
def rollMeanF (w : ℕ) (f : ℕ → ℚ) (i : ℕ) : EF :=
  if i + 1 < w then EF.nan else EF.fin (winSum w f i / (w : ℚ))

/-- `Series.rolling(window=w).max()` at row `i`. -/
def rollMaxF (w : ℕ) (f : ℕ → ℚ) (i : ℕ) : EF :=
  if i + 1 < w then EF.nan
  else EF.fin (((List.range w).map (fun j => f (i + 1 - w + j))).foldl max (f (i + 1 - w)))

/-- `Series.rolling(window=w).min()` at row `i`. -/
def rollMinF (w : ℕ) (f : ℕ → ℚ) (i : ℕ) : EF :=
  if i + 1 < w then EF.nan
  else EF.fin (((List.range w).map (fun j => f (i + 1 - w + j))).foldl min (f (i + 1 - w)))

/-- `Series.rolling(window=w).std()` at row `i`: sample standard deviation
(pandas default `ddof=1`), with the square root supplied as `sq`. -/
def rollStdF (sq : ℚ → ℚ) (w : ℕ) (f : ℕ → ℚ) (i : ℕ) : EF :=
  if i + 1 < w then EF.nan
  else
    EF.fin (sq ((((List.range w).map
      (fun j => (f (i + 1 - w + j) - winSum w f i / (w : ℚ)) ^ 2)).sum) / ((w : ℚ) - 1)))

/-- `Series.ewm(span=s, adjust=False).mean()` at row `i`: recursive
smoothing with factor `2/(s+1)`, seeded by the first value (defined from
row 0, no warm-up NaN region). -/
def emaF (s : ℕ) (f : ℕ → ℚ) : ℕ → ℚ
  | 0 => f 0
  | i + 1 => (2 / ((s : ℚ) + 1)) * f (i + 1) + (1 - 2 / ((s : ℚ) + 1)) * emaF s f i

/-- Close column read (out-of-range reads never occur at the indices the
pipeline uses; the default is irrelevant there). -/
def cAt (bars : List Bar) (i : ℕ) : ℚ := (bars.map Bar.close).getD i 0

/-- High column read. -/
def hAt (bars : List Bar) (i : ℕ) : ℚ := (bars.map Bar.high).getD i 0

/-- Low column read. -/
def lAt (bars : List Bar) (i : ℕ) : ℚ := (bars.map Bar.low).getD i 0

/-- Volume column read. -/
def vAt (bars : List Bar) (i : ℕ) : ℚ := (bars.map Bar.volume).getD i 0

/-- `df['SMA_w'] = df['Close'].rolling(window=w).mean()` at row `i`. -/
def smaAt (w : ℕ) (bars : List Bar) (i : ℕ) : EF := rollMeanF w (cAt bars) i

/-- `df['EMA_12']` at row `i` (always a finite float). -/
def ema12At (bars : List Bar) (i : ℕ) : ℚ := emaF 12 (cAt bars) i

/-- `df['EMA_26']` at row `i`. -/
def ema26At (bars : List Bar) (i : ℕ) : ℚ := emaF 26 (cAt bars) i

/-- `df['MACD'] = df['EMA_12'] - df['EMA_26']` at row `i`. -/
def macdAt (bars : List Bar) (i : ℕ) : ℚ := ema12At bars i - ema26At bars i

/-- `df['MACD_Signal'] = df['MACD'].ewm(span=9, adjust=False).mean()`. -/
def macdSigAt (bars : List Bar) (i : ℕ) : ℚ := emaF 9 (macdAt bars) i

/-- `df['MACD_Histogram'] = df['MACD'] - df['MACD_Signal']`. -/
def macdHistAt (bars : List Bar) (i : ℕ) : ℚ := macdAt bars i - macdSigAt bars i

/-- `delta.where(delta > 0, 0)` at row `i`, where `delta = Close.diff()`.
Row 0's delta is NaN; `where` treats the NaN condition as false, so row 0
becomes 0 (not NaN) — consequently the gain column has no NaN at all. -/
def gainAt (bars : List Bar) (i : ℕ) : ℚ :=
  if i = 0 then 0 else max (cAt bars i - cAt bars (i - 1)) 0

/-- `(-delta.where(delta < 0, 0))` at row `i`: the sign-flipped negative
deltas, 0 elsewhere (row 0 likewise 0, see `gainAt`). -/
def lossAt (bars : List Bar) (i : ℕ) : ℚ :=
  if i = 0 then 0 else max (cAt bars (i - 1) - cAt bars i) 0

/-- `gain = (...).rolling(window=14).mean()`: the trailing 14-bar average
gain. -/
def avgGainAt (bars : List Bar) (i : ℕ) : EF := rollMeanF 14 (gainAt bars) i

/-- `loss = (...).rolling(window=14).mean()`: the trailing 14-bar average
loss. -/
def avgLossAt (bars : List Bar) (i : ℕ) : EF := rollMeanF 14 (lossAt bars) i

/-- `rs = gain / loss; RSI = 100 - (100 / (1 + rs))`, as IEEE float
arithmetic on the average gain/loss: no special case for a zero divisor
appears in the source. -/
def rsiFrom (g l : EF) : EF :=
  EF.sub (EF.fin 100) (EF.div (EF.fin 100) (EF.add (EF.fin 1) (EF.div g l)))

/-- `df['RSI']` at row `i`. -/
def rsiAt (bars : List Bar) (i : ℕ) : EF := rsiFrom (avgGainAt bars i) (avgLossAt bars i)

/-- `df['BB_Middle'] = df['Close'].rolling(window=20).mean()`. -/
def bbMidAt (bars : List Bar) (i : ℕ) : EF := rollMeanF 20 (cAt bars) i

/-- `bb_std = df['Close'].rolling(window=20).std()`. -/
def bbStdAt (sq : ℚ → ℚ) (bars : List Bar) (i : ℕ) : EF := rollStdF sq 20 (cAt bars) i

/-- `df['BB_Upper'] = df['BB_Middle'] + (bb_std * 2)`. -/
def bbUpAt (sq : ℚ → ℚ) (bars : List Bar) (i : ℕ) : EF :=
  EF.add (bbMidAt bars i) (EF.mul (bbStdAt sq bars i) (EF.fin 2))

/-- `df['BB_Lower'] = df['BB_Middle'] - (bb_std * 2)`. -/
def bbLoAt (sq : ℚ → ℚ) (bars : List Bar) (i : ℕ) : EF :=
  EF.sub (bbMidAt bars i) (EF.mul (bbStdAt sq bars i) (EF.fin 2))

/-- `df['BB_Width'] = (df['BB_Upper'] - df['BB_Lower']) / df['BB_Middle']`. -/
def bbWidthAt (sq : ℚ → ℚ) (bars : List Bar) (i : ℕ) : EF :=
  EF.div (EF.sub (bbUpAt sq bars i) (bbLoAt sq bars i)) (bbMidAt bars i)

/-- True range at row `i`: `ranges.max(axis=1)` over
`high-low, |high - Close.shift()|, |low - Close.shift()|`.  At row 0 the
two shifted terms are NaN and the row-wise max skips NaN, leaving
`high - low`. -/
def trAt (bars : List Bar) (i : ℕ) : ℚ :=
  if i = 0 then hAt bars 0 - lAt bars 0
  else max (hAt bars i - lAt bars i)
    (max |hAt bars i - cAt bars (i - 1)| |lAt bars i - cAt bars (i - 1)|)

/-- `df['ATR'] = true_range.rolling(14).mean()`. -/
def atrAt (bars : List Bar) (i : ℕ) : EF := rollMeanF 14 (trAt bars) i

/-- `df['Volume_SMA_20'] = df['Volume'].rolling(window=20).mean()`. -/
def volSmaAt (bars : List Bar) (i : ℕ) : EF := rollMeanF 20 (vAt bars) i

/-- `df['Volume_Ratio'] = df['Volume'] / df['Volume_SMA_20']`. -/
def volRatioAt (bars : List Bar) (i : ℕ) : EF :=
  EF.div (EF.fin (vAt bars i)) (volSmaAt bars i)

/-- `df['ROC'] = df['Close'].pct_change(periods=10) * 100`. -/
def rocAt (bars : List Bar) (i : ℕ) : EF :=
  if i < 10 then EF.nan
  else EF.mul
    (EF.div (EF.fin (cAt bars i - cAt bars (i - 10))) (EF.fin (cAt bars (i - 10))))
    (EF.fin 100)

/-- `df['Momentum'] = df['Close'] - df['Close'].shift(10)`. -/
def momAt (bars : List Bar) (i : ℕ) : EF :=
  if i < 10 then EF.nan else EF.fin (cAt bars i - cAt bars (i - 10))

/-- `df['Resistance'] = df['High'].rolling(window=20).max()`. -/
def resAt (bars : List Bar) (i : ℕ) : EF := rollMaxF 20 (hAt bars) i

/-- `df['Support'] = df['Low'].rolling(window=20).min()`. -/
def supAt (bars : List Bar) (i : ℕ) : EF := rollMinF 20 (lAt bars) i

/-- The enriched columns `calculate_indicators` assigns, in assignment
order, each of the same length as the frame (one cell per row). -/
structure Derived where
  sma20 : List EF
  sma50 : List EF
  sma200 : List EF
  ema12 : List EF
  ema26 : List EF
  macd : List EF
  macdSig : List EF
  macdHist : List EF
  rsi : List EF
  bbMiddle : List EF
  bbUpper : List EF
  bbLower : List EF
  bbWidth : List EF
  atr : List EF
  volSma20 : List EF
  volRatio : List EF
  roc : List EF
  momentum : List EF
  resistance : List EF
  support : List EF
deriving DecidableEq, Repr

/-- The dataframe: base OHLCV rows plus, once `calculate_indicators` has
run, the derived columns (pandas column assignment adds columns to the
same frame object; `derived = none` models a frame fresh from
`get_price_data`, before enrichment). -/
structure Frame where
  bars : List Bar
  derived : Option Derived
deriving DecidableEq, Repr

/-- All derived columns of `calculate_indicators`, computed from the base
columns only, row by row. -/
def computeDerived (sq : ℚ → ℚ) (bars : List Bar) : Derived :=
  let n := bars.length
  { sma20 := (List.range n).map (smaAt 20 bars)
    sma50 := (List.range n).map (smaAt 50 bars)
    sma200 := (List.range n).map (smaAt 200 bars)
    ema12 := (List.range n).map (fun i => EF.fin (ema12At bars i))
    ema26 := (List.range n).map (fun i => EF.fin (ema26At bars i))
    macd := (List.range n).map (fun i => EF.fin (macdAt bars i))
    macdSig := (List.range n).map (fun i => EF.fin (macdSigAt bars i))
    macdHist := (List.range n).map (fun i => EF.fin (macdHistAt bars i))
    rsi := (List.range n).map (rsiAt bars)
    bbMiddle := (List.range n).map (bbMidAt bars)
    bbUpper := (List.range n).map (bbUpAt sq bars)
    bbLower := (List.range n).map (bbLoAt sq bars)
    bbWidth := (List.range n).map (bbWidthAt sq bars)
    atr := (List.range n).map (atrAt bars)
    volSma20 := (List.range n).map (volSmaAt bars)
    volRatio := (List.range n).map (volRatioAt bars)
    roc := (List.range n).map (rocAt bars)
    momentum := (List.range n).map (momAt bars)
    resistance := (List.range n).map (resAt bars)
    support := (List.range n).map (supAt bars) }

/-- `TechnicalAnalyzer.calculate_indicators`: `if df.empty: return df`,
otherwise assign every derived column on the caller's frame and return
it.  The function is total — it contains no validation of the date index
and no raise path. -/
def calcIndicators (sq : ℚ → ℚ) (f : Frame) : Frame :=
  if f.bars.isEmpty then f
  else { f with derived := some (computeDerived sq f.bars) }

/-- One enriched row (`df.iloc[k]`), as read by `analyze_stock`,
`_determine_trend`, `_generate_signals` and `_recommend_strategies`.
`close` is a base column and always finite. -/
structure Snapshot where
  close : ℚ
  sma20 : EF
  sma50 : EF
  sma200 : EF
  ema12 : EF
  ema26 : EF
  macd : EF
  macdSig : EF
  macdHist : EF
  rsi : EF
  bbMiddle : EF
  bbUpper : EF
  bbLower : EF
  bbWidth : EF
  atr : EF
  volSma20 : EF
  volRatio : EF
  roc : EF
  momentum : EF
  resistance : EF
  support : EF
deriving DecidableEq, Repr

/-- Row `i` of the enriched frame over `bars` (`df.iloc[i]` after
`calculate_indicators`). -/
def snapAt (sq : ℚ → ℚ) (bars : List Bar) (i : ℕ) : Snapshot :=
  { close := cAt bars i
    sma20 := smaAt 20 bars i
    sma50 := smaAt 50 bars i
    sma200 := smaAt 200 bars i
    ema12 := EF.fin (ema12At bars i)
    ema26 := EF.fin (ema26At bars i)
    macd := EF.fin (macdAt bars i)
    macdSig := EF.fin (macdSigAt bars i)
    macdHist := EF.fin (macdHistAt bars i)
    rsi := rsiAt bars i
    bbMiddle := bbMidAt bars i
    bbUpper := bbUpAt sq bars i
    bbLower := bbLoAt sq bars i
    bbWidth := bbWidthAt sq bars i
    atr := atrAt bars i
    volSma20 := volSmaAt bars i
    volRatio := volRatioAt bars i
    roc := rocAt bars i
    momentum := momAt bars i
    resistance := resAt bars i
    support := supAt bars i }

/-- The five trend labels `_determine_trend` can return.  The source uses
the strings "Strong Uptrend", "Uptrend", "Strong Downtrend", "Downtrend"
and "Sideways/Consolidation". -/
inductive Trend where
  | strongUptrend : Trend
  | uptrend : Trend
  | strongDowntrend : Trend
  | downtrend : Trend
  | sideways : Trend
deriving DecidableEq, Repr

/-- Python truthiness of the `sma_200` argument (a float or `None`):
`None` and `0.0` are falsy, every other float — NaN and the infinities
included — is truthy.  (`analyze_stock` passes
`latest['SMA_200'] if not pd.isna(latest['SMA_200']) else None`, so the
NaN case never actually reaches `_determine_trend`.) -/
def pyTruthy : Option EF → Bool
  | none => false
  | some (EF.fin q) => decide (q ≠ 0)
  | some _ => true

/-- Read the float behind the `sma_200` optional (only consulted after a
truthiness guard has passed, so the default is never the decider). -/
def getE (o : Option EF) : EF := o.getD EF.nan

/-- `pd.isna`-based conversion used at `analyze_stock` line 119:
NaN becomes `None`, every other float is kept. -/
def extToOpt : EF → Option EF
  | EF.nan => none
  | e => some e

/-- `TechnicalAnalyzer._determine_trend`: four guarded rules in order
(`if/elif`), each guard `sma_200 and <comparison chain>`; chained Python
comparisons `a > b > c` mean `a > b and b > c`. -/
def determineTrend (price : ℚ) (s20 s50 : EF) (s200 : Option EF) : Trend :=
  if pyTruthy s200 && EF.lt s20 (EF.fin price) && EF.lt s50 s20 && EF.lt (getE s200) s50 then
    Trend.strongUptrend
  else if pyTruthy s200 && EF.lt (getE s200) (EF.fin price) then
    Trend.uptrend
  else if pyTruthy s200 && EF.lt (EF.fin price) s20 && EF.lt s20 s50 && EF.lt s50 (getE s200) then
    Trend.strongDowntrend
  else if pyTruthy s200 && EF.lt (EF.fin price) (getE s200) then
    Trend.downtrend
  else
    Trend.sideways

/-- The trend classifier as the specification words it: the same five
rules in the same precedence order, but guarded by "SMA-200 is defined"
(i.e. present), with comparisons against undefined values false. -/
def trendSpec (price : ℚ) (s20 s50 : EF) (s200 : Option EF) : Trend :=
  if s200.isSome && EF.lt s20 (EF.fin price) && EF.lt s50 s20 && EF.lt (getE s200) s50 then
    Trend.strongUptrend
  else if s200.isSome && EF.lt (getE s200) (EF.fin price) then
    Trend.uptrend
  else if s200.isSome && EF.lt (EF.fin price) s20 && EF.lt s20 s50 && EF.lt s50 (getE s200) then
    Trend.strongDowntrend
  else if s200.isSome && EF.lt (EF.fin price) (getE s200) then
    Trend.downtrend
  else
    Trend.sideways

/-- The trend `analyze_stock` computes for a series: the last row's close
and SMAs, with `SMA_200` converted through `pd.isna` to an optional. -/
def trendOfSeries (bars : List Bar) : Trend :=
  let i := bars.length - 1
  determineTrend (cAt bars i) (smaAt 20 bars i) (smaAt 50 bars i) (extToOpt (smaAt 200 bars i))

/-- The fixed vocabulary of signal tags `_generate_signals` can emit. -/
inductive SignalTag where
  | rsiOversold : SignalTag
  | rsiOverbought : SignalTag
  | rsiBuyZone : SignalTag
  | macdBullCross : SignalTag
  | macdBearCross : SignalTag
  | priceAboveSma50 : SignalTag
  | priceBelowSma50 : SignalTag
  | belowLowerBB : SignalTag
  | aboveUpperBB : SignalTag
  | goldenCross : SignalTag
  | deathCross : SignalTag
  | highVolume : SignalTag
deriving DecidableEq, Repr

/-- The three signal lists `_generate_signals` fills (`buy_signals`,
`sell_signals`, `neutral_signals`). -/
structure Signals where
  buys : List SignalTag
  sells : List SignalTag
  neutrals : List SignalTag
deriving DecidableEq, Repr

/-- The empty signal dictionary the generator starts from. -/
def noSignals : Signals := ⟨[], [], []⟩

/-- RSI block: `if rsi < 30 … elif rsi > 70 … elif 30 <= rsi <= 50 …`. -/
def rsiBlock (l : Snapshot) : Signals :=
  if EF.lt l.rsi (EF.fin 30) then ⟨[SignalTag.rsiOversold], [], []⟩
  else if EF.lt (EF.fin 70) l.rsi then ⟨[], [SignalTag.rsiOverbought], []⟩
  else if EF.le (EF.fin 30) l.rsi && EF.le l.rsi (EF.fin 50) then ⟨[SignalTag.rsiBuyZone], [], []⟩
  else noSignals

/-- MACD block: `if macd > macd_signal and prev['MACD'] <= prev['MACD_Signal']
… elif macd < macd_signal and prev['MACD'] >= prev['MACD_Signal'] …`. -/
def macdBlock (l p : Snapshot) : Signals :=
  if EF.lt l.macdSig l.macd && EF.le p.macd p.macdSig then ⟨[SignalTag.macdBullCross], [], []⟩
  else if EF.lt l.macd l.macdSig && EF.le p.macdSig p.macd then ⟨[], [SignalTag.macdBearCross], []⟩
  else noSignals

/-- Moving-average block:
`if price > latest['SMA_50'] and prev['Close'] <= prev['SMA_50'] … elif …`. -/
def maBlock (l p : Snapshot) : Signals :=
  if EF.lt l.sma50 (EF.fin l.close) && EF.le (EF.fin p.close) p.sma50 then
    ⟨[SignalTag.priceAboveSma50], [], []⟩
  else if EF.lt (EF.fin l.close) l.sma50 && EF.le p.sma50 (EF.fin p.close) then
    ⟨[], [SignalTag.priceBelowSma50], []⟩
  else noSignals

/-- Bollinger block: `if price < bb_lower … elif price > bb_upper …`. -/
def bbBlock (l : Snapshot) : Signals :=
  if EF.lt (EF.fin l.close) l.bbLower then ⟨[SignalTag.belowLowerBB], [], []⟩
  else if EF.lt l.bbUpper (EF.fin l.close) then ⟨[], [SignalTag.aboveUpperBB], []⟩
  else noSignals

/-- Golden/Death-cross block:
`if latest['SMA_50'] > latest['SMA_200'] and prev['SMA_50'] <= prev['SMA_200']
… elif latest['SMA_50'] < latest['SMA_200'] and prev['SMA_50'] >= prev['SMA_200'] …`. -/
def gcBlock (l p : Snapshot) : Signals :=
  if EF.lt l.sma200 l.sma50 && EF.le p.sma50 p.sma200 then ⟨[SignalTag.goldenCross], [], []⟩
  else if EF.lt l.sma50 l.sma200 && EF.le p.sma200 p.sma50 then ⟨[], [SignalTag.deathCross], []⟩
  else noSignals

/-- Volume block: `if latest['Volume_Ratio'] > 1.5 …` (a neutral tag). -/
def volBlock (l : Snapshot) : Signals :=
  if EF.lt (EF.fin (3 / 2)) l.volRatio then ⟨[], [], [SignalTag.highVolume]⟩
  else noSignals

/-- `TechnicalAnalyzer._generate_signals`: the six blocks append to the
three lists in source order, so each output list is the concatenation of
the blocks' contributions in that order. -/
def generateSignals (l p : Snapshot) : Signals :=
  { buys := (rsiBlock l).buys ++ (macdBlock l p).buys ++ (maBlock l p).buys ++
      (bbBlock l).buys ++ (gcBlock l p).buys ++ (volBlock l).buys
    sells := (rsiBlock l).sells ++ (macdBlock l p).sells ++ (maBlock l p).sells ++
      (bbBlock l).sells ++ (gcBlock l p).sells ++ (volBlock l).sells
    neutrals := (rsiBlock l).neutrals ++ (macdBlock l p).neutrals ++ (maBlock l p).neutrals ++
      (bbBlock l).neutrals ++ (gcBlock l p).neutrals ++ (volBlock l).neutrals }

/-- `analyze_stock` lines 112–113 and 137: `latest = df.iloc[-1]`,
`prev = df.iloc[-2] if len(df) > 1 else latest`, then
`_generate_signals(latest, prev, df)`. -/
def signalsOfSeries (sq : ℚ → ℚ) (bars : List Bar) : Signals :=
  let n := bars.length
  generateSignals (snapAt sq bars (n - 1)) (snapAt sq bars (if 1 < n then n - 2 else n - 1))

/-- The five strategy kinds `_recommend_strategies` can emit, in source
rule order. -/
inductive StratKind where
  | trendFollow : StratKind
  | meanReversion : StratKind
  | breakout : StratKind
  | volExpansion : StratKind
  | pullback : StratKind
deriving DecidableEq, Repr

/-- A stop-loss/take-profit slot of a strategy dictionary: either a float
price level or descriptive free text (the source's remaining dictionary
entries — entry, position size, rationale, risk/reward — are opaque
display strings with no structured semantics and are not modelled). -/
inductive SVal where
  | num (e : EF) : SVal
  | txt : SVal
deriving DecidableEq, Repr

/-- One strategy dictionary: its kind, `stop_loss`, `take_profit_1` and
optional `take_profit_2` (rule 4 has no `take_profit_2` key). -/
structure Strat where
  kind : StratKind
  stopLoss : SVal
  tp1 : SVal
  tp2 : Option SVal
deriving DecidableEq, Repr

/-- Python `'Uptrend' in trend` on the five label strings: the substring
"Uptrend" (capital U) occurs in "Strong Uptrend" and "Uptrend" only —
"Strong Downtrend", "Downtrend" and "Sideways/Consolidation" do not
contain it. -/
def uptrendIn : Trend → Bool
  | Trend.strongUptrend => true
  | Trend.uptrend => true
  | _ => false

/-- Rule 3's gate, source lines 282–283:
`resistance_near = abs(price - latest['Resistance']) / price < 0.02`
`and latest['Volume_Ratio'] > 1.2`. -/
def breakoutCond (s : Snapshot) : Bool :=
  EF.lt (EF.div (EF.eabs (EF.sub (EF.fin s.close) s.resistance)) (EF.fin s.close)) (EF.fin (2 / 100))
    && EF.lt (EF.fin (12 / 10)) s.volRatio

/-- `TechnicalAnalyzer._recommend_strategies`: five independent `if`
blocks, each appending one dictionary to the result list when its
condition holds. -/
def recommendStrategies (t : Trend) (s : Snapshot) : List Strat :=
  (if uptrendIn t then
    [{ kind := StratKind.trendFollow
       stopLoss := SVal.num (EF.sub (EF.fin s.close) (EF.mul (EF.fin 2) s.atr))
       tp1 := SVal.num (EF.add (EF.fin s.close) (EF.mul (EF.fin 2) s.atr))
       tp2 := some (SVal.num (EF.add (EF.fin s.close) (EF.mul (EF.fin 3) s.atr))) }]
   else []) ++
  (if EF.lt s.rsi (EF.fin 30) || EF.lt (EF.fin s.close) s.bbLower then
    [{ kind := StratKind.meanReversion
       stopLoss := SVal.num s.support
       tp1 := SVal.num s.bbMiddle
       tp2 := some (SVal.num s.sma20) }]
   else []) ++
  (if breakoutCond s then
    [{ kind := StratKind.breakout
       stopLoss := SVal.num s.sma20
       tp1 := SVal.num (EF.add s.resistance (EF.sub s.resistance s.support))
       tp2 := some (SVal.num (EF.add s.resistance (EF.mul (EF.fin 2) (EF.sub s.resistance s.support)))) }]
   else []) ++
  (if EF.lt s.bbWidth (EF.fin (1 / 10)) then
    [{ kind := StratKind.volExpansion
       stopLoss := SVal.txt
       tp1 := SVal.txt
       tp2 := none }]
   else []) ++
  (if decide (t = Trend.strongUptrend) && EF.le (EF.fin 40) s.rsi && EF.le s.rsi (EF.fin 50) then
    [{ kind := StratKind.pullback
       stopLoss := SVal.num s.sma50
       tp1 := SVal.num s.resistance
       tp2 := some (SVal.num (EF.mul s.resistance (EF.fin (105 / 100)))) }]
   else [])

/-- Every derived column of `d` has exactly `n` cells (one per input
row). -/
def derivedLens (d : Derived) (n : ℕ) : Prop :=
  d.sma20.length = n ∧ d.sma50.length = n ∧ d.sma200.length = n ∧
  d.ema12.length = n ∧ d.ema26.length = n ∧ d.macd.length = n ∧
  d.macdSig.length = n ∧ d.macdHist.length = n ∧ d.rsi.length = n ∧
  d.bbMiddle.length = n ∧ d.bbUpper.length = n ∧ d.bbLower.length = n ∧
  d.bbWidth.length = n ∧ d.atr.length = n ∧ d.volSma20.length = n ∧
  d.volRatio.length = n ∧ d.roc.length = n ∧ d.momentum.length = n ∧
  d.resistance.length = n ∧ d.support.length = n

/-- A degenerate all-equal bar, for concrete witnesses. -/
def mkBar (d : ℤ) (p : ℚ) (v : ℚ) : Bar :=
  { date := d, bopen := p, high := p, low := p, close := p, volume := v }

/-- 14 bars of a perfectly flat series (constant close 10). -/
def flatBars : List Bar := List.replicate 14 (mkBar 0 10 1)

/-- 14 bars whose closes strictly increase by 1 each day. -/
def upBars : List Bar := (List.range 14).map (fun j => mkBar (j : ℤ) (j : ℚ) 1)

/-- A two-row frame with a duplicated date (non-strictly-increasing date
index), fresh from ingestion. -/
def dupFrame : Frame :=
  { bars := [mkBar 0 1 1, { date := 0, bopen := 2, high := 2, low := 2, close := 2, volume := 1 }]
    derived := none }

/-- A snapshot whose derived cells are all NaN (as for a first row with
no trailing history), used as a base for concrete witnesses. -/
def nanSnap : Snapshot :=
  { close := 0, sma20 := EF.nan, sma50 := EF.nan, sma200 := EF.nan,
    ema12 := EF.nan, ema26 := EF.nan, macd := EF.nan, macdSig := EF.nan,
    macdHist := EF.nan, rsi := EF.nan, bbMiddle := EF.nan, bbUpper := EF.nan,
    bbLower := EF.nan, bbWidth := EF.nan, atr := EF.nan, volSma20 := EF.nan,
    volRatio := EF.nan, roc := EF.nan, momentum := EF.nan,
    resistance := EF.nan, support := EF.nan }

/-- Latest snapshot of a golden-cross scenario: SMA-50 above SMA-200. -/
def snapGCl : Snapshot := { nanSnap with sma50 := EF.fin 2, sma200 := EF.fin 1 }

/-- Previous snapshot of a golden-cross scenario: SMA-50 at SMA-200. -/
def snapGCp : Snapshot := { nanSnap with sma50 := EF.fin 1, sma200 := EF.fin 1 }

/-- A concrete fully-populated snapshot for strategy witnesses: price
100, ATR 2, RSI 45, resistance 101, support 95, volume ratio 2. -/
def snapStrat : Snapshot :=
  { nanSnap with
    close := 100
    sma20 := EF.fin 99
    sma50 := EF.fin 98
    rsi := EF.fin 45
    bbMiddle := EF.fin 99
    bbLower := EF.fin 90
    bbWidth := EF.fin 1
    atr := EF.fin 2
    volRatio := EF.fin 2
    resistance := EF.fin 101
    support := EF.fin 95 }


/-! ## Theorems -/

/-- C5: for an empty input price series, `calculate_indicators` returns
the frame unchanged (an empty output) and, being a total function with an
explicit empty-input branch, raises no error. -/
theorem calcIndicators_empty_input (sq : ℚ → ℚ) (f : Frame) (h : f.bars = []) :
    calcIndicators sq f = f := by
  simp [calcIndicators, h]

/-- Witness for C5 at the concrete empty frame. -/
theorem calcIndicators_empty_input_witness :
    calcIndicators (fun q => q) { bars := [], derived := none } = { bars := [], derived := none } :=
  calcIndicators_empty_input (fun q => q) { bars := [], derived := none } rfl

/-- C7: computing indicators is idempotent and stateless — running
`calculate_indicators` a second time on its own output recomputes every
derived column purely from the unchanged base columns and yields the
identical frame. -/
theorem calcIndicators_idempotent (sq : ℚ → ℚ) (f : Frame) :
    calcIndicators sq (calcIndicators sq f) = calcIndicators sq f := by
  by_cases h : f.bars.isEmpty <;> simp [calcIndicators, h]

/-- Helper: the computed derived columns each have one cell per row. -/
theorem derivedLens_computeDerived (sq : ℚ → ℚ) (bars : List Bar) :
    derivedLens (computeDerived sq bars) bars.length := by
  simp [derivedLens, computeDerived]

/-- C10: `calculate_indicators` only adds derived columns — for a
non-empty input the base rows (date index and OHLCV fields) come through
unchanged, in order, and every derived column has exactly one cell per
input row.  (That the source achieves this by enriching the caller's
frame in place and returning the same object is a fact about pandas
aliasing, visible at source lines 47–92; the observable frame content is
what is provable here.) -/
theorem calcIndicators_preserves_base (sq : ℚ → ℚ) (f : Frame) (h : f.bars ≠ []) :
    (calcIndicators sq f).bars = f.bars ∧
      (calcIndicators sq f).derived = some (computeDerived sq f.bars) ∧
      ∀ d, (calcIndicators sq f).derived = some d → derivedLens d f.bars.length := by
  have hne : ¬ f.bars.isEmpty := by simpa [List.isEmpty_iff] using h
  refine ⟨by simp [calcIndicators, hne], by simp [calcIndicators, hne], ?_⟩
  intro d hd
  simp [calcIndicators, hne] at hd
  subst hd
  exact derivedLens_computeDerived sq f.bars

/-- Witness for C10 at a concrete one-bar frame. -/
theorem calcIndicators_preserves_base_witness :
    (calcIndicators (fun q => q) { bars := [mkBar 0 1 1], derived := none }).bars
      = [mkBar 0 1 1] :=
  (calcIndicators_preserves_base (fun q => q) { bars := [mkBar 0 1 1], derived := none }
    (by simp)).1

/-- C2 counterexample: on a two-row frame whose date index is not
strictly increasing (a duplicate date), `calculate_indicators` does not
surface any data-integrity error — it produces a fully enriched output
frame with both rows, contradicting the claim that such input is
rejected before indicator output is produced. -/
theorem no_date_validation_counterexample :
    ¬ List.Chain' (fun a b => a < b) (dupFrame.bars.map Bar.date) ∧
      (calcIndicators (fun q => q) dupFrame).bars.length = 2 ∧
      ((calcIndicators (fun q => q) dupFrame).derived).isSome = true := by
  refine ⟨?_, by simp [calcIndicators, dupFrame], by simp [calcIndicators, dupFrame]⟩
  intro hch
  simp [dupFrame, mkBar, List.chain'_cons] at hch

/-- C2 amended: `calculate_indicators` performs no date-integrity
validation at all — for every non-empty frame, chronological or not, it
returns the same rows enriched with the derived columns. -/
theorem no_date_validation (sq : ℚ → ℚ) (f : Frame) (h : f.bars ≠ [])
    (_hbad : ¬ List.Chain' (fun a b => a < b) (f.bars.map Bar.date)) :
    (calcIndicators sq f).bars = f.bars ∧
      (calcIndicators sq f).derived = some (computeDerived sq f.bars) := by
  have hne : ¬ f.bars.isEmpty := by simpa [List.isEmpty_iff] using h
  exact ⟨by simp [calcIndicators, hne], by simp [calcIndicators, hne]⟩

/-- Witness for C2's amended statement at the duplicate-date frame. -/
theorem no_date_validation_witness :
    (calcIndicators (fun q => q) dupFrame).bars = dupFrame.bars :=
  (no_date_validation (fun q => q) dupFrame (by simp [dupFrame])
    (by intro hch; simp [dupFrame, mkBar, List.chain'_cons] at hch)).1

/-- Only the golden/death-cross block can emit the golden-cross tag. -/
theorem goldenCross_only_gc (l p : Snapshot) :
    SignalTag.goldenCross ∉ (rsiBlock l).buys ∧
    SignalTag.goldenCross ∉ (macdBlock l p).buys ∧
    SignalTag.goldenCross ∉ (maBlock l p).buys ∧
    SignalTag.goldenCross ∉ (bbBlock l).buys ∧
    SignalTag.goldenCross ∉ (volBlock l).buys := by
  refine ⟨?_, ?_, ?_, ?_, ?_⟩ <;>
    first
      | (unfold rsiBlock; split_ifs <;> simp [noSignals])
      | (unfold macdBlock; split_ifs <;> simp [noSignals])
      | (unfold maBlock; split_ifs <;> simp [noSignals])
      | (unfold bbBlock; split_ifs <;> simp [noSignals])
      | (unfold volBlock; split_ifs <;> simp [noSignals])

/-- Only the golden/death-cross block can emit the death-cross tag. -/
theorem deathCross_only_gc (l p : Snapshot) :
    SignalTag.deathCross ∉ (rsiBlock l).sells ∧
    SignalTag.deathCross ∉ (macdBlock l p).sells ∧
    SignalTag.deathCross ∉ (maBlock l p).sells ∧
    SignalTag.deathCross ∉ (bbBlock l).sells ∧
    SignalTag.deathCross ∉ (volBlock l).sells := by
  refine ⟨?_, ?_, ?_, ?_, ?_⟩ <;>
    first
      | (unfold rsiBlock; split_ifs <;> simp [noSignals])
      | (unfold macdBlock; split_ifs <;> simp [noSignals])
      | (unfold maBlock; split_ifs <;> simp [noSignals])
      | (unfold bbBlock; split_ifs <;> simp [noSignals])
      | (unfold volBlock; split_ifs <;> simp [noSignals])

/-- Within the golden/death-cross `if/elif`, the two tags are exclusive. -/
theorem gcBlock_exclusive (l p : Snapshot)
    (hg : SignalTag.goldenCross ∈ (gcBlock l p).buys) :
    SignalTag.deathCross ∉ (gcBlock l p).sells := by
  unfold gcBlock at *
  split_ifs at * <;> simp_all [noSignals]

/-- C6: the golden-cross buy tag and the death-cross sell tag are
mutually exclusive — a single call to `_generate_signals` that emits the
golden cross never also emits the death cross. -/
theorem golden_death_exclusive (l p : Snapshot)
    (hg : SignalTag.goldenCross ∈ (generateSignals l p).buys) :
    SignalTag.deathCross ∉ (generateSignals l p).sells := by
  intro hd
  simp only [generateSignals, List.mem_append] at hg hd
  have hgo := goldenCross_only_gc l p
  have hde := deathCross_only_gc l p
  rcases hg with ((((h | h) | h) | h) | h) | h
  · exact hgo.1 h
  · exact hgo.2.1 h
  · exact hgo.2.2.1 h
  · exact hgo.2.2.2.1 h
  · rcases hd with ((((h' | h') | h') | h') | h') | h'
    · exact hde.1 h'
    · exact hde.2.1 h'
    · exact hde.2.2.1 h'
    · exact hde.2.2.2.1 h'
    · exact gcBlock_exclusive l p h h'
    · exact hde.2.2.2.2 h'
  · exact hgo.2.2.2.2 h

/-- Witness for C6: a concrete snapshot pair in which the golden cross
fires, and the death cross therefore does not. -/
theorem golden_death_exclusive_witness :
    SignalTag.deathCross ∉ (generateSignals snapGCl snapGCp).sells :=
  golden_death_exclusive snapGCl snapGCp (by decide)

/-- C4: an analysis run on a series with fewer than 2 rows produces
three empty signal sets — in particular for a one-row series, where
`prev` falls back to `latest` itself, no RSI, MACD, moving-average,
Bollinger, crossover or volume signal fires. -/
theorem signals_short_series (sq : ℚ → ℚ) (bars : List Bar) (h : bars.length < 2) :
    signalsOfSeries sq bars = noSignals := by
  match bars with
  | [] =>
      simp [signalsOfSeries, snapAt, generateSignals, rsiBlock, macdBlock, maBlock, bbBlock,
        gcBlock, volBlock, noSignals, smaAt, rollMeanF, rsiAt, rsiFrom, avgGainAt, avgLossAt,
        macdAt, macdSigAt, ema12At, ema26At, emaF, cAt, vAt, bbMidAt, bbUpAt, bbLoAt, bbStdAt,
        rollStdF, volRatioAt, volSmaAt, atrAt, EF.lt, EF.le, EF.div, EF.add, EF.sub, EF.neg,
        EF.mul]
  | [b] =>
      simp [signalsOfSeries, snapAt, generateSignals, rsiBlock, macdBlock, maBlock, bbBlock,
        gcBlock, volBlock, noSignals, smaAt, rollMeanF, rsiAt, rsiFrom, avgGainAt, avgLossAt,
        macdAt, macdSigAt, ema12At, ema26At, emaF, cAt, vAt, bbMidAt, bbUpAt, bbLoAt, bbStdAt,
        rollStdF, volRatioAt, volSmaAt, atrAt, EF.lt, EF.le, EF.div, EF.add, EF.sub, EF.neg,
        EF.mul]
  | b1 :: b2 :: t => simp at h; omega

/-- Witness for C4 at a concrete one-bar series. -/
theorem signals_short_series_witness :
    signalsOfSeries (fun q => q) [mkBar 0 5 1] = noSignals :=
  signals_short_series (fun q => q) [mkBar 0 5 1] (by decide)

/-- C3: `_determine_trend` implements exactly the five-rule precedence
classifier of the specification (first match wins), whenever the SMA-200
argument is either absent or carries a positive finite value — which is
every value reachable from a price series with positive closes, since a
200-bar mean of positive closes is positive.  Consequently, for every
series shorter than 200 bars the SMA-200 cell is NaN, `analyze_stock`
converts it to `None`, and the classifier returns sideways regardless of
the shorter-window alignment. -/
theorem trend_classifier_rules :
    (∀ (price : ℚ) (s20 s50 : EF) (s200 : Option EF),
        (∀ e, s200 = some e → ∃ q, e = EF.fin q ∧ 0 < q) →
        determineTrend price s20 s50 s200 = trendSpec price s20 s50 s200)
    ∧ ∀ bars : List Bar, bars ≠ [] → bars.length < 200 → trendOfSeries bars = Trend.sideways := by
  constructor
  · intro price s20 s50 s200 h
    cases s200 with
    | none => simp [determineTrend, trendSpec, pyTruthy]
    | some e =>
        obtain ⟨q, rfl, hq⟩ := h e rfl
        simp [determineTrend, trendSpec, pyTruthy, hq.ne']
  · intro bars hne hlen
    have hpos : 0 < bars.length := List.length_pos.mpr hne
    have hidx : bars.length - 1 + 1 = bars.length := Nat.succ_pred_eq_of_pos hpos
    simp [trendOfSeries, smaAt, rollMeanF, hidx, hlen, extToOpt, determineTrend, pyTruthy]

/-- Witness for C3: the classifier agreement at a concrete undefined
SMA-200, and the sideways fallback on a concrete one-bar series. -/
theorem trend_classifier_rules_witness :
    determineTrend 1 EF.nan EF.nan none = trendSpec 1 EF.nan EF.nan none
    ∧ trendOfSeries [mkBar 0 1 1] = Trend.sideways :=
  ⟨trend_classifier_rules.1 1 EF.nan EF.nan none (fun e h => nomatch h),
   trend_classifier_rules.2 [mkBar 0 1 1] (by simp) (by decide)⟩

/-- C8: `_recommend_strategies` evaluates its five rules independently
(plain `if` blocks, no `elif`), appending in fixed source order, so the
output has between 0 and 5 entries whose kinds form a sublist of the
fixed rule order; each kind is present exactly when its own condition
holds — in particular the trend-following long suggestion is present
exactly when the trend label contains "Uptrend", and it carries
stop = price − 2·ATR, targets price + 2·ATR and price + 3·ATR. -/
theorem recommend_strategies_rules (t : Trend) (s : Snapshot) :
    (recommendStrategies t s).length ≤ 5
    ∧ ((recommendStrategies t s).map Strat.kind).Sublist
        [StratKind.trendFollow, StratKind.meanReversion, StratKind.breakout,
          StratKind.volExpansion, StratKind.pullback]
    ∧ (StratKind.trendFollow ∈ (recommendStrategies t s).map Strat.kind ↔ uptrendIn t = true)
    ∧ (StratKind.meanReversion ∈ (recommendStrategies t s).map Strat.kind ↔
        (EF.lt s.rsi (EF.fin 30) || EF.lt (EF.fin s.close) s.bbLower) = true)
    ∧ (StratKind.breakout ∈ (recommendStrategies t s).map Strat.kind ↔ breakoutCond s = true)
    ∧ (StratKind.volExpansion ∈ (recommendStrategies t s).map Strat.kind ↔
        EF.lt s.bbWidth (EF.fin (1 / 10)) = true)
    ∧ (StratKind.pullback ∈ (recommendStrategies t s).map Strat.kind ↔
        (decide (t = Trend.strongUptrend) && EF.le (EF.fin 40) s.rsi
          && EF.le s.rsi (EF.fin 50)) = true)
    ∧ (∀ st ∈ recommendStrategies t s, st.kind = StratKind.trendFollow →
        st.stopLoss = SVal.num (EF.sub (EF.fin s.close) (EF.mul (EF.fin 2) s.atr))
        ∧ st.tp1 = SVal.num (EF.add (EF.fin s.close) (EF.mul (EF.fin 2) s.atr))
        ∧ st.tp2 = some (SVal.num (EF.add (EF.fin s.close) (EF.mul (EF.fin 3) s.atr)))) := by
  unfold recommendStrategies
  split_ifs with h1 h2 h3 h4 h5 <;>
    refine ⟨by simp, by simp <;> decide, by simp_all, by simp_all, by simp_all, by simp_all,
      by simp_all, by simp_all⟩

/-- Witness for C8: with an uptrend label and a concrete snapshot the
trend-following kind is indeed emitted. -/
theorem recommend_strategies_rules_witness :
    StratKind.trendFollow ∈ (recommendStrategies Trend.uptrend snapStrat).map Strat.kind :=
  ((recommend_strategies_rules Trend.uptrend snapStrat).2.2.1).mpr rfl

/-- C9: the breakout suggestion is emitted exactly when
`abs(price − resistance)/price < 0.02` and the volume ratio exceeds 1.2,
and it carries stop = SMA-20, target 1 = resistance + (resistance −
support), target 2 = resistance + 2·(resistance − support). -/
theorem breakout_rule (t : Trend) (s : Snapshot) :
    (StratKind.breakout ∈ (recommendStrategies t s).map Strat.kind ↔
      (EF.lt (EF.div (EF.eabs (EF.sub (EF.fin s.close) s.resistance)) (EF.fin s.close))
          (EF.fin (2 / 100))
        && EF.lt (EF.fin (12 / 10)) s.volRatio) = true)
    ∧ ∀ st ∈ recommendStrategies t s, st.kind = StratKind.breakout →
        st.stopLoss = SVal.num s.sma20
        ∧ st.tp1 = SVal.num (EF.add s.resistance (EF.sub s.resistance s.support))
        ∧ st.tp2 = some (SVal.num
            (EF.add s.resistance (EF.mul (EF.fin 2) (EF.sub s.resistance s.support)))) := by
  unfold recommendStrategies breakoutCond
  split_ifs with h1 h2 h3 h4 h5 <;>
    refine ⟨by simp_all [breakoutCond], by simp_all⟩

/-- Witness for C9: the breakout condition holds at the concrete
snapshot (price 100, resistance 101, volume ratio 2) and the kind is
emitted. -/
theorem breakout_rule_witness :
    StratKind.breakout ∈ (recommendStrategies Trend.sideways snapStrat).map Strat.kind :=
  ((breakout_rule Trend.sideways snapStrat).1).mpr
    (by norm_num [snapStrat, nanSnap, EF.sub, EF.neg, EF.add, EF.eabs, EF.div, EF.lt])

/-- C1 counterexample: on a flat 14-bar series the trailing 14-bar
average loss is exactly zero, yet the RSI cell is NaN — not 100 — because
the source computes `rs = gain / loss` with no special case and IEEE
`0/0` is NaN.  This falsifies the claim that RSI equals 100 whenever the
average loss is zero and that no unhandled NaN is produced for a flat
series. -/
theorem rsi_flat_series_counterexample :
    avgLossAt flatBars 13 = EF.fin 0 ∧ rsiAt flatBars 13 = EF.nan
      ∧ rsiAt flatBars 13 ≠ EF.fin 100 := by
  have hnan : rsiAt flatBars 13 = EF.nan := by
    norm_num [rsiAt, rsiFrom, avgGainAt, avgLossAt, rollMeanF, winSum, List.range_succ,
      gainAt, lossAt, cAt, flatBars, mkBar, EF.div, EF.add, EF.sub, EF.neg]
  refine ⟨?_, hnan, ?_⟩
  · norm_num [avgLossAt, rollMeanF, winSum, List.range_succ, lossAt, cAt, flatBars, mkBar]
  · rw [hnan]
    intro h
    exact absurd h (by simp)

/-- C1 amended: at every row with a filled RSI window, (a) if the average
loss is zero and the average gain positive, the float arithmetic yields
RSI = 100 exactly (via `gain/0 = +inf`), with no explicit special case in
the source; (b) if average gain and average loss are both zero (flat
window), RSI is NaN — undefined, not 100; (c) if the average loss is
positive, RSI is a finite value in [0, 100]. -/
theorem rsi_zero_loss_cases (bars : List Bar) (i : ℕ) :
    (∀ g : ℚ, avgGainAt bars i = EF.fin g → avgLossAt bars i = EF.fin 0 → 0 < g →
      rsiAt bars i = EF.fin 100)
    ∧ (avgGainAt bars i = EF.fin 0 → avgLossAt bars i = EF.fin 0 → rsiAt bars i = EF.nan)
    ∧ (∀ l : ℚ, avgLossAt bars i = EF.fin l → 0 < l →
      ∃ r : ℚ, rsiAt bars i = EF.fin r ∧ 0 ≤ r ∧ r ≤ 100) := by
  refine ⟨?_, ?_, ?_⟩
  · intro g hg hl hgpos
    unfold rsiAt
    rw [hg, hl]
    simp [rsiFrom, EF.div, EF.add, EF.sub, EF.neg, hgpos.ne', hgpos]
  · intro hg hl
    unfold rsiAt
    rw [hg, hl]
    simp [rsiFrom, EF.div, EF.add, EF.sub, EF.neg]
  · intro l hl hlpos
    unfold avgLossAt rollMeanF at hl
    have hw : ¬ (i + 1 < 14) := by
      by_contra hw
      simp [hw] at hl
    rw [if_neg hw] at hl
    simp only [Nat.cast_ofNat] at hl
    have hlval : winSum 14 (lossAt bars) i / (14 : ℚ) = l := by
      injection hl
    have hg0 : 0 ≤ winSum 14 (gainAt bars) i := by
      apply List.sum_nonneg
      intro x hx
      simp only [winSum, List.mem_map, List.mem_range] at hx
      obtain ⟨j, _, rfl⟩ := hx
      unfold gainAt
      split
      · exact le_refl 0
      · exact le_max_right _ _
    set g : ℚ := winSum 14 (gainAt bars) i / (14 : ℚ) with hgdef
    have hgnn : 0 ≤ g := div_nonneg hg0 (by norm_num)
    have hxnn : (0:ℚ) ≤ g / l := div_nonneg hgnn hlpos.le
    have h1x : (0:ℚ) < 1 + g / l := by linarith
    have hd : (0:ℚ) < 100 / (1 + g / l) := by positivity
    have hd100 : 100 / (1 + g / l) ≤ 100 := by
      rw [div_le_iff₀ h1x]
      nlinarith
    refine ⟨100 - 100 / (1 + g / l), ?_, by linarith, by linarith⟩
    unfold rsiAt avgGainAt avgLossAt rollMeanF
    rw [if_neg hw, if_neg hw]
    simp only [Nat.cast_ofNat]
    rw [hlval]
    simp [rsiFrom, EF.div, EF.add, EF.sub, EF.neg, hlpos.ne', h1x.ne', sub_eq_add_neg]

/-- Witness for C1's amended statement: a strictly rising 14-bar series
has average loss 0 and average gain 13/14, and its RSI is exactly 100. -/
theorem rsi_zero_loss_cases_witness :
    rsiAt upBars 13 = EF.fin 100 :=
  (rsi_zero_loss_cases upBars 13).1 (13 / 14)
    (by norm_num [avgGainAt, rollMeanF, winSum, List.range_succ, gainAt, cAt, upBars, mkBar])
    (by norm_num [avgLossAt, rollMeanF, winSum, List.range_succ, lossAt, cAt, upBars, mkBar])
    (by norm_num)

/-- Witness for C7 at a concrete one-bar frame. -/
theorem calcIndicators_idempotent_witness :
    calcIndicators (fun q => q) (calcIndicators (fun q => q) { bars := [mkBar 0 1 1], derived := none })
      = calcIndicators (fun q => q) { bars := [mkBar 0 1 1], derived := none } :=
  calcIndicators_idempotent (fun q => q) { bars := [mkBar 0 1 1], derived := none }
